import Mathlib

/-!
Adapter manager of the BlueZ daemon (`src/manager.c`)

A shallow embedding of the adapter registry, the default-adapter selection and
the three D-Bus methods `DefaultAdapter`, `FindAdapter` and `ListAdapters`.

* The three module-level variables of `manager.c` that matter (`adapters`,
  `default_adapter_id`; `connection` is only a handle passed to the signal
  emitter) are the fields of `manager`; every observable call into a
  collaborator (signal emission, adapter start/stop/release, route lookup) and
  every assignment to `adapters` is appended to `manager.trace`, oldest first,
  so that the trace tells in which order the code acts.
* Collaborators that live outside `manager.c` (the adapter object, the kernel
  device queries, libdbus, libc) answer through a `World`: one field per
  external function, holding what that function returns during the call.
* `int` values are `Int`; `uint16_t` values are `Nat` reduced `% 65536` at the
  places where the C code converts to `uint16_t`.
* The logging calls `info(...)` and `error(...)` are left out.
-/

namespace Bluez

/-! ## Data model -/

/-- The six bytes of a `bdaddr_t`. -/
structure bdaddr_t where
  b : List Nat
deriving DecidableEq, Repr

/-- The observable part of a `struct adapter`: what `adapter_get_dev_id`,
`adapter_get_path` and `adapter_get_address` return for it.  Handles are
compared by value. -/
structure adapter where
  dev_id : Nat
  path : String
  address : String
deriving DecidableEq, Repr

/-- The fields of `struct hci_dev_info` read by `manager.c`. -/
structure hci_dev_info where
  bdaddr : bdaddr_t
  flags : Nat
deriving DecidableEq, Repr

/-- One entry of the array filled by the `HCIGETDEVLIST` ioctl. -/
structure hci_dev_req where
  dev_id : Nat
  dev_opt : Nat
deriving DecidableEq, Repr

/-- Calls into collaborators, in the order they are made. -/
inductive Effect where
  /-- Emission `g_dbus_emit_signal(connection, "/", MANAGER_INTERFACE, name, path)`;
  the path is `none` when it was read from a null adapter handle. -/
  | signal (name : String) (path : Option String)
  | adapter_create (id : Int)
  | adapter_start (a : adapter)
  | adapter_stop (a : adapter)
  | adapter_remove (a : adapter)
  | adapter_update (a : adapter)
  | adapter_get_class (a : adapter)
  | adapter_set_class (a : adapter)
  | hci_get_route
  /-- The assignment `adapters = g_slist_append(adapters, adapter)`. -/
  | adapters_append (a : adapter)
  /-- The assignment `adapters = g_slist_remove(adapters, adapter)`. -/
  | adapters_remove (a : adapter)
deriving DecidableEq, Repr

/-- The module state of `manager.c`. -/
structure manager where
  adapters : List adapter
  default_adapter_id : Int
  trace : List Effect
deriving DecidableEq, Repr

/-- The state at process start: `adapters = NULL`, `default_adapter_id = -1`. -/
def manager.init : manager := ⟨[], -1, []⟩

/-- Answers of the collaborators during one call. -/
structure World where
  /-- Answer of `adapter_create(connection, id)`; `none` is the null handle. -/
  adapter_create : Int → Option adapter
  adapter_start : adapter → Int
  adapter_stop : adapter → Int
  adapter_update : adapter → Int
  adapter_get_class : adapter → Int
  adapter_set_class : adapter → List Nat → Int
  /-- Answer of `hci_get_route(NULL)`. -/
  hci_get_route : Int
  /-- Whether `socket(AF_BLUETOOTH, SOCK_RAW, BTPROTO_HCI)` yields a descriptor. -/
  socket_ok : Bool
  /-- The entries written by `ioctl(sk, HCIGETDEVLIST, dl)`; `none` when it fails. -/
  dev_list : Option (List hci_dev_req)
  /-- Answer of `hci_devinfo(dev_id, &di)`; `none` when it returns a negative value. -/
  hci_devinfo : Int → Option hci_dev_info
  /-- Answer of `str2ba(str, &ba)`. -/
  str2ba : String → bdaddr_t
  /-- Whether `dbus_message_new_method_return(msg)` yields a message. -/
  new_method_return_ok : Bool

/-- What a method handler hands back to the D-Bus dispatcher. -/
inductive DBusReply where
  /-- The handler returned `NULL`. -/
  | null
  /-- An error message built by `g_dbus_create_error`. -/
  | error (name : String) (text : String)
  /-- A method return carrying one object path. -/
  | object_path (path : String)
  /-- A method return carrying an array of object paths. -/
  | object_path_array (paths : List String)
deriving DecidableEq, Repr

/-! ## Constants and helpers from headers and libraries -/

/-- The constant `ERROR_INTERFACE` of `error.h`. -/
def ERROR_INTERFACE : String := "org.bluez.Error"

/-- The constant `EINVAL` of `errno.h`. -/
def EINVAL : Int := 22

/-- Bit number of the raw-mode flag, `HCI_RAW` of `bluetooth/hci.h`. -/
def HCI_RAW : Nat := 8

/-- The test `hci_test_bit(nr, addr)` of `bluetooth/hci_lib.h` on a 32-bit word. -/
def hci_test_bit (nr : Nat) (flags : Nat) : Bool :=
  (flags / 2 ^ (nr % 32)) % 2 == 1

/-- The comparison `bacmp(ba1, ba2)`, a `memcmp` of the six bytes: `0` exactly on equal
addresses (only the test against zero is used). -/
def bacmp (ba1 ba2 : bdaddr_t) : Int :=
  if ba1 = ba2 then 0 else 1

def adapter_get_dev_id (a : adapter) : Nat := a.dev_id % 65536

def adapter_get_path (a : adapter) : String := a.path

def adapter_get_address (a : adapter) : String := a.address

/-- The C function `isspace` in the C locale. -/
def isspace (c : Char) : Bool :=
  c.toNat == 32 || (9 ≤ c.toNat && c.toNat ≤ 13)

/-- The decimal digits at the front of `s`, accumulated onto `acc`. -/
def atoi_digits : List Char → Nat → Nat
  | [], acc => acc
  | c :: cs, acc =>
    if c.isDigit then atoi_digits cs (acc * 10 + (c.toNat - 48)) else acc

def INT_MAX : Int := 2147483647

def INT_MIN : Int := -2147483648

/-- The C function `atoi(s)`: optional white space, optional sign, decimal digits.  A value
outside `int` is clamped (the answer of a `strtol` with 32-bit `long`). -/
def atoi (s : List Char) : Int :=
  let clamp : Int → Int := fun v => max INT_MIN (min INT_MAX v)
  match s.dropWhile isspace with
  | [] => 0
  | c :: cs =>
    if c = Char.ofNat 45 then clamp (-(atoi_digits cs 0 : Int))
    else if c = Char.ofNat 43 then clamp (atoi_digits cs 0)
    else clamp (atoi_digits (c :: cs) 0)

/-- The test `strncmp(s, "hci", 3) == 0`. -/
def strncmp_hci3 (s : List Char) : Bool :=
  s.take 3 == [Char.ofNat 104, Char.ofNat 99, Char.ofNat 105]

def g_slist_find_custom {α β : Type} (list : List α) (data : β)
    (func : α → β → Int) : Option α :=
  list.find? (fun x => func x data == 0)

def g_slist_append {α : Type} (list : List α) (data : α) : List α :=
  list ++ [data]

def g_slist_remove {α : Type} [DecidableEq α] (list : List α) (data : α) : List α :=
  list.erase data

/-! ## `manager.c` -/

def emit (s : manager) (e : Effect) : manager :=
  { s with trace := s.trace ++ [e] }

def invalid_args : DBusReply :=
  .error (ERROR_INTERFACE ++ ".InvalidArguments") "Invalid arguments in method call"

def no_such_adapter : DBusReply :=
  .error (ERROR_INTERFACE ++ ".NoSuchAdapter") "No such adapter"

/-- The comparator: `b` is the `int` packed by `GINT_TO_POINTER`, read back
as `uint16_t`. -/
def adapter_id_cmp (a : adapter) (b : Int) : Int :=
  let id : Int := b % 65536
  let dev_id : Int := adapter_get_dev_id a
  if dev_id = id then 0 else -1

def manager_find_adapter_by_id (s : manager) (id : Int) : Option adapter :=
  g_slist_find_custom s.adapters id adapter_id_cmp

def manager_get_default_adapter (s : manager) : Int :=
  s.default_adapter_id

def manager_set_default_adapter (id : Int) (s : manager) : manager :=
  let adapter := manager_find_adapter_by_id s id
  let path := adapter.map adapter_get_path
  emit { s with default_adapter_id := id } (.signal "DefaultAdapterChanged" path)

/-- The assignment `adapters = g_slist_append(adapters, adapter)`, logged where
it happens. -/
def adapters_append (a : adapter) (s : manager) : manager :=
  { s with
    adapters := g_slist_append s.adapters a
    trace := s.trace ++ [.adapters_append a] }

/-- The assignment `adapters = g_slist_remove(adapters, adapter)`, logged where
it happens. -/
def adapters_remove (a : adapter) (s : manager) : manager :=
  { s with
    adapters := g_slist_remove s.adapters a
    trace := s.trace ++ [.adapters_remove a] }

def manager_add_adapter (a : adapter) (s : manager) : manager :=
  let path := adapter_get_path a
  let s := emit s (.signal "AdapterAdded" (some path))
  adapters_append a s

def manager_remove_adapter (w : World) (a : adapter) (s : manager) : manager :=
  let dev_id : Int := adapter_get_dev_id a
  let path := adapter_get_path a
  let s := emit s (.signal "AdapterRemoved" (some path))
  let s :=
    if s.default_adapter_id = dev_id ∨ s.default_adapter_id < 0 then
      let s := emit s .hci_get_route
      let new_default := w.hci_get_route
      if new_default ≥ 0 then manager_set_default_adapter new_default s else s
    else s
  adapters_remove a s

def manager_register_adapter (w : World) (id : Int) (s : manager) : manager × Int :=
  let s := emit s (.adapter_create id)
  match w.adapter_create id with
  | none => (s, -1)
  | some a => (manager_add_adapter a s, 0)

def manager_unregister_adapter (w : World) (id : Int) (s : manager) : manager × Int :=
  match manager_find_adapter_by_id s id with
  | none => (s, -1)
  | some a =>
    let s := emit s (.adapter_stop a)
    let s := manager_remove_adapter w a s
    let s := emit s (.adapter_remove a)
    (s, 0)

def manager_start_adapter (w : World) (id : Int) (s : manager) : manager × Int :=
  match manager_find_adapter_by_id s id with
  | none => (s, -EINVAL)
  | some a =>
    let ret := w.adapter_start a
    let s := emit s (.adapter_start a)
    if ret < 0 then (s, ret)
    else
      let s := if manager_get_default_adapter s < 0 then manager_set_default_adapter id s else s
      (s, 0)

def manager_stop_adapter (w : World) (id : Int) (s : manager) : manager × Int :=
  match manager_find_adapter_by_id s id with
  | none => (s, -EINVAL)
  | some a => (emit s (.adapter_stop a), w.adapter_stop a)

def manager_update_adapter (w : World) (dev_id : Nat) (s : manager) : manager × Int :=
  match manager_find_adapter_by_id s (dev_id % 65536 : Nat) with
  | none => (s, -EINVAL)
  | some a => (emit s (.adapter_update a), w.adapter_update a)

def manager_get_adapter_class (w : World) (dev_id : Nat) (s : manager) : manager × Int :=
  match manager_find_adapter_by_id s (dev_id % 65536 : Nat) with
  | none => (s, -EINVAL)
  | some a => (emit s (.adapter_get_class a), w.adapter_get_class a)

def manager_set_adapter_class (w : World) (dev_id : Nat) (cls : List Nat) (s : manager) :
    manager × Int :=
  match manager_find_adapter_by_id s (dev_id % 65536 : Nat) with
  | none => (s, -EINVAL)
  | some a => (emit s (.adapter_set_class a), w.adapter_set_class a cls)

/-- The loop of `find_by_address` over the entries `dr` of the device list. -/
def find_by_address_loop (w : World) (ba : bdaddr_t) : List hci_dev_req → Int
  | [] => -1
  | dr :: rest =>
    match w.hci_devinfo (dr.dev_id % 65536 : Nat) with
    | none => find_by_address_loop w ba rest
    | some di =>
      if hci_test_bit HCI_RAW di.flags then find_by_address_loop w ba rest
      else if bacmp ba di.bdaddr = 0 then ((dr.dev_id % 65536 : Nat) : Int)
      else find_by_address_loop w ba rest

def find_by_address (w : World) (str : String) : Int :=
  if ¬ w.socket_ok then -1
  else
    match w.dev_list with
    | none => -1
    | some dl => find_by_address_loop w (w.str2ba str) dl

def default_adapter (w : World) (s : manager) : DBusReply :=
  match manager_find_adapter_by_id s s.default_adapter_id with
  | none => no_such_adapter
  | some a =>
    if ¬ w.new_method_return_ok then .null
    else .object_path (adapter_get_path a)

/-- The id chosen from the pattern by `find_adapter`, before any validation. -/
def find_adapter_dev_id (w : World) (pattern : String) : Int :=
  if strncmp_hci3 pattern.toList ∧ pattern.toList.length ≥ 4 then
    atoi (pattern.toList.drop 3)
  else
    find_by_address w pattern

/-- The handler of `FindAdapter`; `args` is what `dbus_message_get_args`
extracts from the message, `none` when it fails. -/
def find_adapter (w : World) (s : manager) (args : Option String) : DBusReply :=
  match args with
  | none => .null
  | some pattern =>
    let dev_id := find_adapter_dev_id w pattern
    if dev_id < 0 then no_such_adapter
    else
      match w.hci_devinfo dev_id with
      | none => no_such_adapter
      | some di =>
        if hci_test_bit HCI_RAW di.flags then no_such_adapter
        else
          match manager_find_adapter_by_id s dev_id with
          | none => no_such_adapter
          | some a =>
            if ¬ w.new_method_return_ok then .null
            else .object_path (adapter_get_path a)

/-- The loop of `list_adapters` over the registry. -/
def list_adapters_loop (w : World) : List adapter → List String
  | [] => []
  | a :: l =>
    let dev_id := adapter_get_dev_id a
    let path := adapter_get_path a
    match w.hci_devinfo dev_id with
    | none => list_adapters_loop w l
    | some di =>
      if hci_test_bit HCI_RAW di.flags then list_adapters_loop w l
      else path :: list_adapters_loop w l

def list_adapters (w : World) (s : manager) : DBusReply :=
  if ¬ w.new_method_return_ok then .null
  else .object_path_array (list_adapters_loop w s.adapters)

/-! ## Call sequences -/

/-- One call of the management interface. -/
inductive Call where
  | register_adapter (id : Int)
  | unregister_adapter (id : Int)
  | start_adapter (id : Int)
  | stop_adapter (id : Int)
  | set_default_adapter (id : Int)
deriving DecidableEq, Repr

def Call.step (w : World) (c : Call) (s : manager) : manager :=
  match c with
  | .register_adapter id => (manager_register_adapter w id s).1
  | .unregister_adapter id => (manager_unregister_adapter w id s).1
  | .start_adapter id => (manager_start_adapter w id s).1
  | .stop_adapter id => (manager_stop_adapter w id s).1
  | .set_default_adapter id => manager_set_default_adapter id s

/-- Runs the calls from left to right, each in the world it meets. -/
def run : List (World × Call) → manager → manager
  | [], s => s
  | (w, c) :: rest, s => run rest (c.step w s)

/-- The world of a quiet system: the factory builds `/hci<id>`, every adapter
protocol succeeds, the kernel knows no controller and no route. -/
def World.quiet : World where
  adapter_create := fun id => some ⟨(id % 65536).toNat, "/hci" ++ toString id, ""⟩
  adapter_start := fun _ => 0
  adapter_stop := fun _ => 0
  adapter_update := fun _ => 0
  adapter_get_class := fun _ => 0
  adapter_set_class := fun _ _ => 0
  hci_get_route := -1
  socket_ok := true
  dev_list := some []
  hci_devinfo := fun _ => none
  str2ba := fun _ => ⟨[0, 0, 0, 0, 0, 0]⟩
  new_method_return_ok := true

/-- The trace written by the default re-evaluation inside `manager_remove_adapter`. -/
def reevaluation_trace (w : World) (a : adapter) (s : manager) : List Effect :=
  if s.default_adapter_id = (adapter_get_dev_id a : Int) ∨ s.default_adapter_id < 0 then
    if w.hci_get_route ≥ 0 then
      [.hci_get_route,
        .signal "DefaultAdapterChanged"
          ((manager_find_adapter_by_id s w.hci_get_route).map adapter_get_path)]
    else [.hci_get_route]
  else []

/-- The default selection left by `manager_remove_adapter`. -/
def reevaluated_default (w : World) (a : adapter) (s : manager) : Int :=
  if (s.default_adapter_id = (adapter_get_dev_id a : Int) ∨ s.default_adapter_id < 0)
      ∧ w.hci_get_route ≥ 0 then w.hci_get_route
  else s.default_adapter_id

/-- A world like `World.quiet` whose route lookup answers `r`. -/
def World.route (r : Int) : World :=
  { World.quiet with hci_get_route := r }

/-- What an admissible `unregister_adapter` asks of the route lookup, given
the adapter found for the id: when the removal re-evaluates the default, the
lookup answers with no candidate while no default is set, or with the 16-bit id
of a registered adapter other than the removed one. -/
def admissible_removal (w : World) (s : manager) : Option adapter → Prop
  | none => True
  | some a =>
    (s.default_adapter_id = (adapter_get_dev_id a : Int) ∨ s.default_adapter_id < 0) →
      (w.hci_get_route < 0 ∧ s.default_adapter_id < 0) ∨
      (0 ≤ w.hci_get_route ∧ w.hci_get_route < 65536
        ∧ w.hci_get_route ≠ (adapter_get_dev_id a : Int)
        ∧ manager_find_adapter_by_id s w.hci_get_route ≠ none)

instance admissible_removal.decidable (w : World) (s : manager) :
    (o : Option adapter) → Decidable (admissible_removal w s o)
  | none => isTrue trivial
  | some a =>
    inferInstanceAs (Decidable
      ((s.default_adapter_id = (adapter_get_dev_id a : Int) ∨ s.default_adapter_id < 0) →
        (w.hci_get_route < 0 ∧ s.default_adapter_id < 0) ∨
        (0 ≤ w.hci_get_route ∧ w.hci_get_route < 65536
          ∧ w.hci_get_route ≠ (adapter_get_dev_id a : Int)
          ∧ manager_find_adapter_by_id s w.hci_get_route ≠ none)))

/-- Calls under which the default selection is kept inside the registry:
ids given to `start_adapter` and `set_default_adapter` are 16-bit,
`set_default_adapter` names a registered id, and `unregister_adapter` meets an
`admissible_removal`. -/
def Call.admissible (w : World) (c : Call) (s : manager) : Prop :=
  match c with
  | .register_adapter _ => True
  | .stop_adapter _ => True
  | .start_adapter id => id < 65536
  | .set_default_adapter id => id < 65536 ∧ manager_find_adapter_by_id s id ≠ none
  | .unregister_adapter id => admissible_removal w s (manager_find_adapter_by_id s id)

instance Call.admissible.decidable (w : World) (c : Call) (s : manager) :
    Decidable (c.admissible w s) :=
  match c with
  | .register_adapter _ => isTrue trivial
  | .stop_adapter _ => isTrue trivial
  | .start_adapter id => inferInstanceAs (Decidable (id < 65536))
  | .set_default_adapter id =>
    inferInstanceAs (Decidable (id < 65536 ∧ manager_find_adapter_by_id s id ≠ none))
  | .unregister_adapter id =>
    inferInstanceAs (Decidable (admissible_removal w s (manager_find_adapter_by_id s id)))

/-- Every call of the sequence is admissible in the state it meets. -/
def admissible_run : List (World × Call) → manager → Prop
  | [], _ => True
  | (w, c) :: rest, s => c.admissible w s ∧ admissible_run rest (c.step w s)

instance admissible_run.decidable :
    (calls : List (World × Call)) → (s : manager) → Decidable (admissible_run calls s)
  | [], _ => isTrue trivial
  | (w, c) :: rest, s =>
    @instDecidableAnd _ _ (Call.admissible.decidable w c s)
      (admissible_run.decidable rest (c.step w s))

/-- The scenario of the specification: two adapters are registered and
started, then the first is removed while the route lookup answers `1`. -/
def scenario_calls : List (World × Call) :=
  [(World.quiet, .register_adapter 0), (World.quiet, .start_adapter 0),
   (World.quiet, .register_adapter 1), (World.quiet, .start_adapter 1),
   (World.route 1, .unregister_adapter 0)]

/-- The default selection is unset, or a 16-bit id that the registry resolves. -/
def default_resolves (s : manager) : Prop :=
  s.default_adapter_id < 0
    ∨ (s.default_adapter_id < 65536
        ∧ manager_find_adapter_by_id s s.default_adapter_id ≠ none)

/-- Whether an effect is the emission of the signal `name`. -/
def Effect.is_signal (name : String) : Effect → Bool
  | .signal n _ => n == name
  | _ => false

/-- The effects of a call that led from `before` to `after`. -/
def emitted (before after : manager) : List Effect :=
  after.trace.drop before.trace.length

/-- The registry holds no two adapters with the same 16-bit device id. -/
def unique_ids (s : manager) : Prop :=
  (s.adapters.map adapter_get_dev_id).Nodup

instance unique_ids.decidable (s : manager) : Decidable (unique_ids s) :=
  inferInstanceAs (Decidable (s.adapters.map adapter_get_dev_id).Nodup)

/-- The adapter that the factory of `World.quiet` builds for `hci0`. -/
def hci0 : adapter := ⟨0, "/hci0", ""⟩

/-- The adapter that the factory of `World.quiet` builds for `hci1`. -/
def hci1 : adapter := ⟨1, "/hci1", ""⟩

/-- Adapter `hci0` registered and started: it is the default. -/
def started_zero : manager :=
  run [(World.quiet, .register_adapter 0), (World.quiet, .start_adapter 0)] manager.init

/-- Adapters `hci0` and `hci1` registered and started: `hci0` is the default. -/
def started_both : manager :=
  run [(World.quiet, .register_adapter 0), (World.quiet, .start_adapter 0),
    (World.quiet, .register_adapter 1), (World.quiet, .start_adapter 1)] manager.init

/-- A registry holding one adapter with device id `65535`, default unset. -/
def registered_65535 : manager :=
  run [(World.quiet, .register_adapter 65535)] manager.init

/-- The number written by the decimal digits `ds`, most significant first. -/
def decimal_value (ds : List Char) : Nat :=
  Nat.ofDigits 10 (ds.reverse.map (fun c => c.toNat - 48))

/-- The address `00:11:22:33:44:55`. -/
def addr_0011 : bdaddr_t := ⟨[85, 68, 51, 34, 17, 0]⟩

/-- A world like `World.quiet` in which the kernel knows controller `0` with
address `00:11:22:33:44:55` and the given flags. -/
def World.controller (flags : Nat) : World :=
  { World.quiet with
    dev_list := some [⟨0, 0⟩]
    hci_devinfo := fun id => if id = 0 then some ⟨addr_0011, flags⟩ else none
    str2ba := fun str => if str = "00:11:22:33:44:55" then addr_0011 else ⟨[0, 0, 0, 0, 0, 0]⟩ }

/-- A controller of the device list answers the address `ba`: its info
lookup succeeds, its raw-mode flag is clear and its address is `ba`. -/
def address_match (w : World) (ba : bdaddr_t) (dr : hci_dev_req) : Bool :=
  match w.hci_devinfo (dr.dev_id % 65536 : Nat) with
  | none => false
  | some di => !hci_test_bit HCI_RAW di.flags && decide (di.bdaddr = ba)

/-- A registered adapter is shown to clients: its info lookup succeeds and its
raw-mode flag is clear. -/
def live_visible (w : World) (a : adapter) : Bool :=
  match w.hci_devinfo (adapter_get_dev_id a) with
  | none => false
  | some di => !hci_test_bit HCI_RAW di.flags

/-- The adapter `hci0` registered twice. -/
def registered_twice : manager :=
  run [(World.quiet, .register_adapter 0), (World.quiet, .register_adapter 0)] manager.init

/-- Whether an effect is the emission of a signal, whatever its name. -/
def Effect.is_emission : Effect → Bool
  | .signal _ _ => true
  | _ => false

/-- The factory answers `register_adapter(id)` with an adapter whose device
id is `id` as a 16-bit value, when it answers with one. -/
def factory_faithful (id : Int) : Option adapter → Prop
  | none => True
  | some a => (adapter_get_dev_id a : Int) = id % 65536

instance factory_faithful.decidable (id : Int) :
    (o : Option adapter) → Decidable (factory_faithful id o)
  | none => isTrue trivial
  | some a => inferInstanceAs (Decidable ((adapter_get_dev_id a : Int) = id % 65536))

/-- A `register_adapter(id)` names an id that is not registered, and the
factory is faithful to it; the other calls are free. -/
def Call.fresh (w : World) (c : Call) (s : manager) : Prop :=
  match c with
  | .register_adapter id =>
    manager_find_adapter_by_id s id = none ∧ factory_faithful id (w.adapter_create id)
  | _ => True

instance Call.fresh.decidable (w : World) (c : Call) (s : manager) :
    Decidable (c.fresh w s) :=
  match c with
  | .register_adapter id =>
    inferInstanceAs (Decidable
      (manager_find_adapter_by_id s id = none ∧ factory_faithful id (w.adapter_create id)))
  | .unregister_adapter _ => isTrue trivial
  | .start_adapter _ => isTrue trivial
  | .stop_adapter _ => isTrue trivial
  | .set_default_adapter _ => isTrue trivial

/-- Every call of the sequence is fresh in the state it meets. -/
def fresh_run : List (World × Call) → manager → Prop
  | [], _ => True
  | (w, c) :: rest, s => c.fresh w s ∧ fresh_run rest (c.step w s)

instance fresh_run.decidable :
    (calls : List (World × Call)) → (s : manager) → Decidable (fresh_run calls s)
  | [], _ => isTrue trivial
  | (w, c) :: rest, s =>
    @instDecidableAnd _ _ (Call.fresh.decidable w c s) (fresh_run.decidable rest (c.step w s))

/-- A method call arriving on the manager interface; `FindAdapter` carries
what `dbus_message_get_args` extracts from the message, `none` when it fails. -/
inductive MethodCall where
  | DefaultAdapter
  | FindAdapter (args : Option String)
  | ListAdapters
deriving DecidableEq, Repr

/-- The table `manager_methods`: the handler run for a method call, with the
module state it leaves behind (no handler assigns to a module variable or
emits a signal). -/
def manager_methods (w : World) (s : manager) : MethodCall → manager × DBusReply
  | .DefaultAdapter => (s, default_adapter w s)
  | .FindAdapter args => (s, find_adapter w s args)
  | .ListAdapters => (s, list_adapters w s)

/-- Adapter `hci0` is the default and `hci1` is registered but not started. -/
def default_zero_and_one : manager :=
  run [(World.quiet, .register_adapter 0), (World.quiet, .start_adapter 0),
    (World.quiet, .register_adapter 1)] manager.init

/-- The registry obtained from `l` by the assignments to `adapters` that a
trace records, in their order; the other effects leave the registry alone. -/
def registry_replay : List Effect → List adapter → List adapter
  | [], l => l
  | .adapters_append a :: es, l => registry_replay es (g_slist_append l a)
  | .adapters_remove a :: es, l => registry_replay es (g_slist_remove l a)
  | _ :: es, l => registry_replay es l

/-- A world like `World.controller` whose device info lookup takes the id as
a 16-bit value: every id that is `0` modulo 65536 names controller `0`. -/
def World.wrapping (flags : Nat) : World :=
  { World.controller flags with
    hci_devinfo := fun id => if id % 65536 = 0 then some ⟨addr_0011, flags⟩ else none }

/-! ## Lookup lemmas -/

theorem find_by_id_eq (s : manager) (id : Int) :
    manager_find_adapter_by_id s id
      = s.adapters.find? (fun a => decide ((adapter_get_dev_id a : Int) = id % 65536)) := by
  unfold manager_find_adapter_by_id g_slist_find_custom adapter_id_cmp
  congr 1
  funext a
  by_cases h : ((adapter_get_dev_id a : Int) = id % 65536) <;> simp [h]

theorem find_by_id_some {s : manager} {id : Int} {a : adapter}
    (h : manager_find_adapter_by_id s id = some a) :
    a ∈ s.adapters ∧ (adapter_get_dev_id a : Int) = id % 65536 := by
  rw [find_by_id_eq] at h
  exact ⟨List.mem_of_find?_eq_some h, by simpa using List.find?_some h⟩

theorem find_by_id_none {s : manager} {id : Int} :
    manager_find_adapter_by_id s id = none
      ↔ ∀ a ∈ s.adapters, (adapter_get_dev_id a : Int) ≠ id % 65536 := by
  rw [find_by_id_eq]
  simp [List.find?_eq_none]

theorem find_by_id_congr {s t : manager} (h : s.adapters = t.adapters) (id : Int) :
    manager_find_adapter_by_id s id = manager_find_adapter_by_id t id := by
  simp [find_by_id_eq, h]

theorem find_by_id_mk (s : manager) (d : Int) (tr : List Effect) (id : Int) :
    manager_find_adapter_by_id ⟨s.adapters, d, tr⟩ id = manager_find_adapter_by_id s id :=
  find_by_id_congr rfl id

theorem find_by_id_mod (s : manager) (id id1 : Int) (h : id % 65536 = id1 % 65536) :
    manager_find_adapter_by_id s id = manager_find_adapter_by_id s id1 := by
  rw [find_by_id_eq, find_by_id_eq, h]

theorem dev_id_emod (a : adapter) :
    (adapter_get_dev_id a : Int) % 65536 = (adapter_get_dev_id a : Int) := by
  have h : adapter_get_dev_id a < 65536 := Nat.mod_lt _ (by norm_num)
  omega

/-- Looking up the device id of the adapter found for `id` finds it again. -/
theorem find_by_id_dev_id {s : manager} {id : Int} {a : adapter}
    (h : manager_find_adapter_by_id s id = some a) :
    manager_find_adapter_by_id s (adapter_get_dev_id a : Int) = some a := by
  rw [find_by_id_mod s _ id, h]
  rw [dev_id_emod, (find_by_id_some h).2]

theorem find_by_id_of_mem {s : manager} {a : adapter} (h : a ∈ s.adapters) {id : Int}
    (hid : (adapter_get_dev_id a : Int) = id % 65536) :
    manager_find_adapter_by_id s id ≠ none := by
  intro hn
  exact find_by_id_none.mp hn a h hid

/-! ## What each call does to the state -/

theorem unregister_found (w : World) (id : Int) (s : manager) (a : adapter)
    (h : manager_find_adapter_by_id s id = some a) :
    manager_unregister_adapter w id s
      = (⟨s.adapters.erase a, reevaluated_default w a s,
          s.trace ++ [.adapter_stop a, .signal "AdapterRemoved" (some a.path)]
            ++ reevaluation_trace w a s ++ [.adapters_remove a, .adapter_remove a]⟩, 0) := by
  unfold manager_unregister_adapter
  rw [h]
  simp only [manager_remove_adapter, emit, reevaluated_default, reevaluation_trace,
    manager_set_default_adapter, adapters_remove, g_slist_remove, adapter_get_path]
  by_cases h1 : s.default_adapter_id = (adapter_get_dev_id a : Int) ∨ s.default_adapter_id < 0
  · by_cases h2 : w.hci_get_route ≥ 0
    · simp [h1, h2, find_by_id_eq]
    · simp [h1, h2]
  · simp [h1]

theorem unregister_not_found (w : World) (id : Int) (s : manager)
    (h : manager_find_adapter_by_id s id = none) :
    manager_unregister_adapter w id s = (s, -1) := by
  unfold manager_unregister_adapter
  rw [h]

theorem register_created (w : World) (id : Int) (s : manager) (a : adapter)
    (h : w.adapter_create id = some a) :
    manager_register_adapter w id s
      = (⟨s.adapters ++ [a], s.default_adapter_id,
          s.trace ++ [.adapter_create id, .signal "AdapterAdded" (some a.path),
            .adapters_append a]⟩, 0) := by
  simp [manager_register_adapter, h, manager_add_adapter, adapters_append, emit,
    g_slist_append, adapter_get_path]

theorem register_failed (w : World) (id : Int) (s : manager)
    (h : w.adapter_create id = none) :
    manager_register_adapter w id s
      = (⟨s.adapters, s.default_adapter_id, s.trace ++ [.adapter_create id]⟩, -1) := by
  simp [manager_register_adapter, h, emit]

theorem start_found (w : World) (id : Int) (s : manager) (a : adapter)
    (h : manager_find_adapter_by_id s id = some a) :
    manager_start_adapter w id s
      = if w.adapter_start a < 0 then
          (⟨s.adapters, s.default_adapter_id, s.trace ++ [.adapter_start a]⟩, w.adapter_start a)
        else if s.default_adapter_id < 0 then
          (⟨s.adapters, id, s.trace ++ [.adapter_start a,
              .signal "DefaultAdapterChanged" (some a.path)]⟩, 0)
        else (⟨s.adapters, s.default_adapter_id, s.trace ++ [.adapter_start a]⟩, 0) := by
  unfold manager_start_adapter
  rw [h]
  have h' : manager_find_adapter_by_id (emit s (.adapter_start a)) id = some a := by
    rw [← h]; exact find_by_id_congr rfl id
  by_cases h1 : w.adapter_start a < 0
  · simp [h1, emit]
  · by_cases h2 : s.default_adapter_id < 0
    · have h'' : manager_find_adapter_by_id
          ⟨s.adapters, s.default_adapter_id, s.trace ++ [.adapter_start a]⟩ id = some a := h'
      simp [h1, h2, manager_get_default_adapter, manager_set_default_adapter, h'', emit,
        adapter_get_path]
    · simp [h1, h2, manager_get_default_adapter, emit]

theorem start_not_found (w : World) (id : Int) (s : manager)
    (h : manager_find_adapter_by_id s id = none) :
    manager_start_adapter w id s = (s, -EINVAL) := by
  unfold manager_start_adapter
  rw [h]

theorem stop_adapters_default (w : World) (id : Int) (s : manager) :
    (manager_stop_adapter w id s).1.adapters = s.adapters
      ∧ (manager_stop_adapter w id s).1.default_adapter_id = s.default_adapter_id := by
  unfold manager_stop_adapter
  cases manager_find_adapter_by_id s id <;> simp [emit]

theorem set_default_eq (id : Int) (s : manager) :
    manager_set_default_adapter id s
      = ⟨s.adapters, id, s.trace ++ [.signal "DefaultAdapterChanged"
          ((manager_find_adapter_by_id s id).map adapter_get_path)]⟩ := by
  simp [manager_set_default_adapter, emit, find_by_id_eq]

/-! ## The default selection along call sequences -/

theorem default_resolves_congr {s t : manager} (ha : t.adapters = s.adapters)
    (hd : t.default_adapter_id = s.default_adapter_id) (h : default_resolves s) :
    default_resolves t := by
  unfold default_resolves at *
  rw [hd, find_by_id_congr ha]
  exact h

theorem find_by_id_append {s : manager} {id : Int} (a : adapter) (tr : List Effect) (d : Int)
    (h : manager_find_adapter_by_id s id ≠ none) :
    manager_find_adapter_by_id ⟨s.adapters ++ [a], d, tr⟩ id ≠ none := by
  obtain ⟨b, hb⟩ := Option.ne_none_iff_exists'.mp h
  have := find_by_id_some hb
  exact find_by_id_of_mem (s := ⟨s.adapters ++ [a], d, tr⟩)
    (List.mem_append_left _ this.1) this.2

theorem find_by_id_erase {s : manager} {id : Int} (a : adapter) (tr : List Effect) (d : Int)
    (h : manager_find_adapter_by_id s id ≠ none)
    (hne : (adapter_get_dev_id a : Int) ≠ id % 65536) :
    manager_find_adapter_by_id ⟨s.adapters.erase a, d, tr⟩ id ≠ none := by
  obtain ⟨b, hb⟩ := Option.ne_none_iff_exists'.mp h
  have hb' := find_by_id_some hb
  have hba : b ≠ a := by
    rintro rfl
    exact hne hb'.2
  exact find_by_id_of_mem (s := ⟨s.adapters.erase a, d, tr⟩)
    ((List.mem_erase_of_ne hba).mpr hb'.1) hb'.2

theorem step_default_resolves (w : World) (c : Call) (s : manager)
    (hadm : c.admissible w s) (hinv : default_resolves s) :
    default_resolves (c.step w s) := by
  cases c with
  | register_adapter id =>
    simp only [Call.step]
    cases hc : w.adapter_create id with
    | none =>
      rw [register_failed w id s hc]
      exact default_resolves_congr rfl rfl hinv
    | some a =>
      rw [register_created w id s a hc]
      rcases hinv with h | ⟨h1, h2⟩
      · exact Or.inl h
      · exact Or.inr ⟨h1, find_by_id_append a _ _ h2⟩
  | stop_adapter id =>
    simp only [Call.step]
    exact default_resolves_congr (stop_adapters_default w id s).1
      (stop_adapters_default w id s).2 hinv
  | set_default_adapter id =>
    simp only [Call.step]
    rw [set_default_eq]
    exact Or.inr ⟨hadm.1, by simp only; rw [find_by_id_mk]; exact hadm.2⟩
  | start_adapter id =>
    simp only [Call.step]
    cases hf : manager_find_adapter_by_id s id with
    | none =>
      rw [start_not_found w id s hf]
      exact hinv
    | some a =>
      rw [start_found w id s a hf]
      split_ifs with h1 h2
      · exact default_resolves_congr rfl rfl hinv
      · refine Or.inr ⟨hadm, ?_⟩
        simp only
        rw [find_by_id_mk, hf]
        simp
      · exact default_resolves_congr rfl rfl hinv
  | unregister_adapter id =>
    simp only [Call.step]
    cases hf : manager_find_adapter_by_id s id with
    | none =>
      rw [unregister_not_found w id s hf]
      exact hinv
    | some a =>
      rw [unregister_found w id s a hf]
      have hadm' : admissible_removal w s (some a) := hf ▸ hadm
      unfold default_resolves reevaluated_default
      simp only
      by_cases htrig : s.default_adapter_id = (adapter_get_dev_id a : Int)
          ∨ s.default_adapter_id < 0
      · rcases hadm' htrig with ⟨hr, hd⟩ | ⟨hr0, hr1, hr2, hr3⟩
        · have : ¬ w.hci_get_route ≥ 0 := by omega
          simp only [htrig, this, and_false, if_false]
          exact Or.inl hd
        · simp only [htrig, ge_iff_le, hr0, and_self, if_true]
          refine Or.inr ⟨hr1, find_by_id_erase a _ _ hr3 ?_⟩
          rw [Int.emod_eq_of_lt hr0 hr1]
          exact fun h => hr2 h.symm
      · simp only [htrig, false_and, if_false]
        rcases hinv with h | ⟨h1, h2⟩
        · exact absurd (Or.inr h) htrig
        · have h0 : 0 ≤ s.default_adapter_id := by
            by_contra hc
            exact htrig (Or.inr (by omega))
          refine Or.inr ⟨h1, find_by_id_erase a _ _ h2 ?_⟩
          rw [Int.emod_eq_of_lt h0 h1]
          exact fun h => htrig (Or.inl h.symm)

theorem run_default_resolves (calls : List (World × Call)) (s : manager)
    (hadm : admissible_run calls s) (hinv : default_resolves s) :
    default_resolves (run calls s) := by
  induction calls generalizing s with
  | nil => exact hinv
  | cons wc rest ih =>
    obtain ⟨w, c⟩ := wc
    exact ih (c.step w s) hadm.2 (step_default_resolves w c s hadm.1 hinv)

/-- C1, as the code has it: along every admissible call sequence from the
initial state, a set default id (`manager_get_default_adapter() >= 0`) is the
id of an adapter that `manager_find_adapter_by_id` finds in the registry. -/
theorem default_selection_invariant (calls : List (World × Call))
    (hadm : admissible_run calls manager.init) :
    0 ≤ manager_get_default_adapter (run calls manager.init) →
      manager_find_adapter_by_id (run calls manager.init)
        (manager_get_default_adapter (run calls manager.init)) ≠ none := by
  intro h0
  have hinit : default_resolves manager.init := Or.inl (by decide)
  rcases run_default_resolves calls manager.init hadm hinit with h | ⟨_, h⟩
  · unfold manager_get_default_adapter at h0
    omega
  · exact h

theorem default_selection_invariant_witness :
    admissible_run scenario_calls manager.init
      ∧ manager_get_default_adapter (run scenario_calls manager.init) = 1
      ∧ manager_find_adapter_by_id (run scenario_calls manager.init)
          (manager_get_default_adapter (run scenario_calls manager.init)) ≠ none :=
  ⟨by decide, by decide,
    default_selection_invariant scenario_calls (by decide) (by decide)⟩

/-- C1 as stated fails: after `register_adapter(0)`, `start_adapter(0)` and
`unregister_adapter(0)` with a route lookup that finds no candidate, the default
id is still `0` while the registry is empty. -/
theorem default_selection_invariant_counterexample :
    ¬ (0 ≤ manager_get_default_adapter
          (run [(World.quiet, .register_adapter 0), (World.quiet, .start_adapter 0),
            (World.quiet, .unregister_adapter 0)] manager.init) →
        manager_find_adapter_by_id
          (run [(World.quiet, .register_adapter 0), (World.quiet, .start_adapter 0),
            (World.quiet, .unregister_adapter 0)] manager.init)
          (manager_get_default_adapter
            (run [(World.quiet, .register_adapter 0), (World.quiet, .start_adapter 0),
              (World.quiet, .unregister_adapter 0)] manager.init)) ≠ none) := by
  decide

/-! ## Removing the default adapter -/

theorem find_by_id_erase_unique {s : manager} {id : Int} {a : adapter}
    (hu : unique_ids s) (hf : manager_find_adapter_by_id s id = some a)
    (d : Int) (tr : List Effect) :
    manager_find_adapter_by_id ⟨s.adapters.erase a, d, tr⟩ id = none := by
  have ha := find_by_id_some hf
  rw [find_by_id_none]
  intro b hb hbid
  have hnd : s.adapters.Nodup := List.Nodup.of_map _ hu
  have hb' := (List.Nodup.mem_erase_iff hnd).mp hb
  have hinj := List.inj_on_of_nodup_map hu
  exact hb'.1 (hinj hb'.2 ha.1 (by
    have : (adapter_get_dev_id b : Int) = (adapter_get_dev_id a : Int) := by
      rw [hbid, ha.2]
    exact_mod_cast this))

/-- C2, as the code has it: when the registered adapter `id` is the default
and the route lookup finds no candidate, `unregister_adapter(id)` leaves the
default id as it was (non-negative, no `DefaultAdapterChanged` is emitted);
with no other adapter of that id registered, `DefaultAdapter()` then fails with
`NoSuchAdapter`. -/
theorem unregister_default_without_route (w : World) (s : manager) (id : Int) (a : adapter)
    (hf : manager_find_adapter_by_id s id = some a)
    (hd : s.default_adapter_id = (adapter_get_dev_id a : Int))
    (hr : w.hci_get_route < 0) :
    manager_get_default_adapter (manager_unregister_adapter w id s).1 = s.default_adapter_id
      ∧ 0 ≤ manager_get_default_adapter (manager_unregister_adapter w id s).1
      ∧ (emitted s (manager_unregister_adapter w id s).1).filter
          (Effect.is_signal "DefaultAdapterChanged") = []
      ∧ (unique_ids s → ∀ w1 : World,
          default_adapter w1 (manager_unregister_adapter w id s).1 = no_such_adapter) := by
  rw [unregister_found w id s a hf]
  have hnr : ¬ w.hci_get_route ≥ 0 := by omega
  have hdef : reevaluated_default w a s = s.default_adapter_id := by
    simp [reevaluated_default, hnr]
  refine ⟨hdef, ?_, ?_, ?_⟩
  · simp only [manager_get_default_adapter, hdef, hd]
    exact Int.natCast_nonneg _
  · simp [emitted, reevaluation_trace, hd, hnr, Effect.is_signal]
  · intro hu w1
    unfold default_adapter
    simp only [hdef]
    have hid : manager_find_adapter_by_id s s.default_adapter_id = some a := by
      rw [hd]
      exact find_by_id_dev_id hf
    rw [find_by_id_erase_unique hu hid]

theorem unregister_default_without_route_witness :
    manager_get_default_adapter (manager_unregister_adapter World.quiet 0 started_zero).1 = 0
      ∧ default_adapter World.quiet (manager_unregister_adapter World.quiet 0 started_zero).1
          = no_such_adapter :=
  have h := unregister_default_without_route World.quiet started_zero 0 hci0
    (by decide) (by decide) (by decide)
  ⟨h.1, h.2.2.2 (by decide) World.quiet⟩

/-- C2 as stated fails: `hci0` is registered and is the default, the route
lookup finds no candidate, and after `unregister_adapter(0)` the default id is
`0`, not a negative value. -/
theorem unregister_default_without_route_counterexample :
    manager_find_adapter_by_id started_zero 0 = some hci0
      ∧ started_zero.default_adapter_id = (adapter_get_dev_id hci0 : Int)
      ∧ World.quiet.hci_get_route < 0
      ∧ ¬ manager_get_default_adapter
            (manager_unregister_adapter World.quiet 0 started_zero).1 < 0 := by
  decide

/-- C3: when the registered adapter `id` is the default and the route lookup
answers with a registered id, `unregister_adapter(id)` leaves that id as the
default and emits exactly one `DefaultAdapterChanged`, carrying the path of the
adapter registered under the answered id. -/
theorem unregister_default_with_route (w : World) (s : manager) (id : Int) (a b : adapter)
    (hf : manager_find_adapter_by_id s id = some a)
    (hd : s.default_adapter_id = (adapter_get_dev_id a : Int))
    (hr : 0 ≤ w.hci_get_route)
    (hb : manager_find_adapter_by_id s w.hci_get_route = some b) :
    (manager_unregister_adapter w id s).2 = 0
      ∧ manager_get_default_adapter (manager_unregister_adapter w id s).1 = w.hci_get_route
      ∧ (emitted s (manager_unregister_adapter w id s).1).filter
          (Effect.is_signal "DefaultAdapterChanged")
          = [.signal "DefaultAdapterChanged" (some (adapter_get_path b))] := by
  rw [unregister_found w id s a hf]
  refine ⟨rfl, ?_, ?_⟩
  · simp [manager_get_default_adapter, reevaluated_default, hd, hr]
  · simp [emitted, reevaluation_trace, hd, hr, hb, Effect.is_signal]

theorem unregister_default_with_route_witness :
    manager_get_default_adapter (manager_unregister_adapter (World.route 1) 0 started_both).1 = 1
      ∧ (emitted started_both (manager_unregister_adapter (World.route 1) 0 started_both).1).filter
          (Effect.is_signal "DefaultAdapterChanged")
          = [.signal "DefaultAdapterChanged" (some "/hci1")] :=
  (unregister_default_with_route (World.route 1) started_both 0 hci0 hci1
    (by decide) (by decide) (by decide) (by decide)).2

/-! ## `DefaultAdapter` -/

theorem no_such_adapter_ne_object_path (p : String) :
    DBusReply.object_path p ≠ no_such_adapter := by
  intro h
  cases h

theorem no_such_adapter_ne_null : DBusReply.null ≠ no_such_adapter := by
  intro h
  cases h

/-- C4: the claim is broken at an unset default.  After `register_adapter(65535)`
nothing is started, the default is `-1` and is the id of no registered adapter,
yet `DefaultAdapter()` does not fail: the lookup reads `-1` back as the 16-bit
id `65535` and the path of that adapter is returned. -/
theorem default_adapter_unset_alias :
    registered_65535.default_adapter_id = -1
      ∧ (∀ a ∈ registered_65535.adapters,
          (adapter_get_dev_id a : Int) ≠ registered_65535.default_adapter_id)
      ∧ default_adapter World.quiet registered_65535 = .object_path "/hci65535"
      ∧ default_adapter World.quiet registered_65535 ≠ no_such_adapter := by
  decide

/-! ## `FindAdapter` -/

/-- C5, as the code has it: once the pattern is resolved to a non-negative
id, `FindAdapter` fails with `NoSuchAdapter` exactly when the device info
lookup for the id fails, or its raw-mode flag is set, or no registered adapter
has a 16-bit device id equal to the id modulo 65536; otherwise, the reply
message being available, it returns the path of the first registered adapter
with such a device id. -/
theorem find_adapter_validation (w : World) (s : manager) (pattern : String)
    (h0 : 0 ≤ find_adapter_dev_id w pattern) :
    (find_adapter w s (some pattern) = no_such_adapter
        ↔ (w.hci_devinfo (find_adapter_dev_id w pattern) = none
            ∨ (∃ di, w.hci_devinfo (find_adapter_dev_id w pattern) = some di
                ∧ hci_test_bit HCI_RAW di.flags = true)
            ∨ ∀ a ∈ s.adapters,
                (adapter_get_dev_id a : Int) ≠ find_adapter_dev_id w pattern % 65536))
      ∧ (w.new_method_return_ok = true →
          ∀ di a, w.hci_devinfo (find_adapter_dev_id w pattern) = some di →
            hci_test_bit HCI_RAW di.flags = false →
            s.adapters.find? (fun x => decide
              ((adapter_get_dev_id x : Int) = find_adapter_dev_id w pattern % 65536)) = some a →
            find_adapter w s (some pattern) = .object_path (adapter_get_path a)) := by
  have hn : ¬ find_adapter_dev_id w pattern < 0 := by omega
  constructor
  · rw [← find_by_id_none]
    simp only [find_adapter, hn, if_false]
    cases hdi : w.hci_devinfo (find_adapter_dev_id w pattern) with
    | none => simp
    | some di =>
      by_cases hraw : hci_test_bit HCI_RAW di.flags = true
      · simp [hraw]
      · cases hf : manager_find_adapter_by_id s (find_adapter_dev_id w pattern) with
        | none => simp [hraw]
        | some a =>
          cases hk : w.new_method_return_ok <;>
            simp [hraw, no_such_adapter_ne_null, no_such_adapter_ne_object_path]
  · intro hk di a hdi hraw hf
    rw [← find_by_id_eq] at hf
    simp [find_adapter, hn, hdi, hraw, hf, hk]

theorem find_adapter_validation_witness :
    find_adapter (World.controller 0) started_zero (some "hci0") = .object_path "/hci0" :=
  (find_adapter_validation (World.controller 0) started_zero "hci0" (by decide)).2
    (by decide) ⟨addr_0011, 0⟩ hci0 (by decide) (by decide) (by decide)

/-- C5 as stated fails: `hci65536` is resolved to `65536`, the device info
lookup for it succeeds with the raw-mode flag clear, no registered adapter has
the id `65536`, and `FindAdapter` returns the path of `hci0`. -/
theorem find_adapter_validation_counterexample :
    find_adapter_dev_id (World.wrapping 0) "hci65536" = 65536
      ∧ (World.wrapping 0).hci_devinfo 65536 = some ⟨addr_0011, 0⟩
      ∧ hci_test_bit HCI_RAW 0 = false
      ∧ (∀ a ∈ started_zero.adapters, (adapter_get_dev_id a : Int) ≠ 65536)
      ∧ find_adapter (World.wrapping 0) started_zero (some "hci65536")
          = .object_path "/hci0" := by
  decide

/-! ## Resolving the pattern -/

theorem isDigit_bounds (c : Char) (h : c.isDigit = true) : 48 ≤ c.toNat ∧ c.toNat ≤ 57 := by
  unfold Char.isDigit at h
  simp only [Bool.and_eq_true, decide_eq_true_eq, ge_iff_le] at h
  obtain ⟨h1, h2⟩ := h
  rw [UInt32.le_def, BitVec.le_def] at h1 h2
  exact ⟨h1, h2⟩

theorem ne_ofNat_of_toNat_ne (c : Char) (n : Nat) (h : c.toNat ≠ (Char.ofNat n).toNat) :
    c ≠ Char.ofNat n := by
  rintro rfl
  exact h rfl

theorem atoi_digits_all (ds : List Char) (hd : ∀ c ∈ ds, c.isDigit = true) (acc : Nat) :
    atoi_digits ds acc = acc * 10 ^ ds.length + decimal_value ds := by
  induction ds generalizing acc with
  | nil => simp [atoi_digits, decimal_value]
  | cons c cs ih =>
    have hc : c.isDigit = true := hd c (List.mem_cons_self c cs)
    have hcs : ∀ x ∈ cs, x.isDigit = true := fun x hx => hd x (List.mem_cons_of_mem c hx)
    rw [atoi_digits, if_pos hc, ih hcs]
    simp only [decimal_value, List.reverse_cons, List.map_append, List.map_cons, List.map_nil,
      Nat.ofDigits_append, Nat.ofDigits_singleton, List.length_map, List.length_reverse,
      List.length_cons]
    ring

/-- What `atoi` makes of a string that opens with a character that is neither
white space nor a sign. -/
theorem atoi_plain (c : Char) (cs : List Char) (hs : isspace c = false)
    (hm : c ≠ Char.ofNat 45) (hp : c ≠ Char.ofNat 43) :
    atoi (c :: cs) = max INT_MIN (min INT_MAX (atoi_digits (c :: cs) 0 : Int)) := by
  simp [atoi, List.dropWhile, hs, hm, hp]

theorem hci_branch (w : World) (pattern : String) (rest : List Char)
    (hp : pattern.toList = Char.ofNat 104 :: Char.ofNat 99 :: Char.ofNat 105 :: rest)
    (hr : rest ≠ []) :
    find_adapter_dev_id w pattern = atoi rest := by
  unfold find_adapter_dev_id
  rw [hp]
  simp [strncmp_hci3, hr]

theorem strncmp_hci3_iff (l : List Char) :
    strncmp_hci3 l = true ↔ "hci".toList <+: l := by
  have hh : "hci".toList = [Char.ofNat 104, Char.ofNat 99, Char.ofNat 105] := by decide
  rw [List.prefix_iff_eq_take, hh]
  simp only [strncmp_hci3, beq_iff_eq, List.length_cons, List.length_nil]
  exact eq_comm

theorem address_branch (w : World) (pattern : String)
    (h : ¬ ("hci".toList <+: pattern.toList ∧ 4 ≤ pattern.length)) :
    find_adapter_dev_id w pattern = find_by_address w pattern := by
  unfold find_adapter_dev_id
  rw [if_neg]
  rw [strncmp_hci3_iff]
  simpa using h

/-- C6: a pattern made of `hci` and one or more decimal digits whose value
fits an `int` is resolved to that value, in every world: neither the address
lookup nor any device query has a say. -/
theorem find_adapter_hci_digits (w : World) (ds : List Char) (hne : ds ≠ [])
    (hd : ∀ c ∈ ds, c.isDigit = true) (hfit : (decimal_value ds : Int) ≤ INT_MAX) :
    find_adapter_dev_id w ("hci" ++ String.mk ds) = decimal_value ds := by
  have hp : ("hci" ++ String.mk ds).toList
      = Char.ofNat 104 :: Char.ofNat 99 :: Char.ofNat 105 :: ds := by
    simp [String.toList]
  rw [hci_branch w _ ds hp hne]
  obtain ⟨c, cs, rfl⟩ := List.exists_cons_of_ne_nil hne
  have hb := isDigit_bounds c (hd c (List.mem_cons_self c cs))
  have hs : isspace c = false := by
    simp only [isspace, Bool.or_eq_false_iff, beq_eq_false_iff_ne, Bool.and_eq_false_iff,
      decide_eq_false_iff_not]
    omega
  have hm : c ≠ Char.ofNat 45 := ne_ofNat_of_toNat_ne c 45 (by
    have : (Char.ofNat 45).toNat = 45 := by decide
    omega)
  have hpl : c ≠ Char.ofNat 43 := ne_ofNat_of_toNat_ne c 43 (by
    have : (Char.ofNat 43).toNat = 43 := by decide
    omega)
  rw [atoi_plain c cs hs hm hpl, atoi_digits_all (c :: cs) hd 0]
  have h0 : (0 : Int) ≤ (decimal_value (c :: cs) : Int) := Int.natCast_nonneg _
  simp only [zero_mul, zero_add]
  unfold INT_MIN
  unfold INT_MAX at hfit ⊢
  omega

theorem find_adapter_hci_digits_witness :
    find_adapter_dev_id World.quiet "hci2" = 2 ∧ World.quiet.hci_devinfo 2 = none :=
  ⟨find_adapter_hci_digits World.quiet [Char.ofNat 50] (by decide) (by decide) (by decide),
    rfl⟩

theorem find_by_address_loop_eq (w : World) (ba : bdaddr_t) (dl : List hci_dev_req) :
    find_by_address_loop w ba dl
      = match dl.find? (address_match w ba) with
        | some dr => ((dr.dev_id % 65536 : Nat) : Int)
        | none => -1 := by
  induction dl with
  | nil => rfl
  | cons dr rest ih =>
    rw [find_by_address_loop, List.find?_cons]
    unfold address_match
    cases hdi : w.hci_devinfo (dr.dev_id % 65536 : Nat) with
    | none => simpa using ih
    | some di =>
      by_cases hraw : hci_test_bit HCI_RAW di.flags = true
      · simpa [hraw] using ih
      · by_cases hba : di.bdaddr = ba
        · simp [hraw, hba, bacmp]
        · have hba1 : ¬ ba = di.bdaddr := fun h => hba h.symm
          simpa [hraw, hba, hba1, bacmp] using ih

/-- C8: over the controller list answered by the kernel, `find_by_address`
returns the id of the first controller whose info lookup succeeds, whose
raw-mode flag is clear and whose address is the parsed one, and `-1` when there
is none; hence `FindAdapter` of an address pattern fails with `NoSuchAdapter`
when every controller with that address is in raw mode. -/
theorem find_by_address_first (w : World) (dl : List hci_dev_req)
    (hs : w.socket_ok = true) (hl : w.dev_list = some dl) :
    (∀ str : String, find_by_address w str
        = match dl.find? (address_match w (w.str2ba str)) with
          | some dr => ((dr.dev_id % 65536 : Nat) : Int)
          | none => -1)
      ∧ (∀ (s : manager) (pattern : String),
          ¬ ("hci".toList <+: pattern.toList ∧ 4 ≤ pattern.length) →
          (∀ dr ∈ dl, ∀ di, w.hci_devinfo (dr.dev_id % 65536 : Nat) = some di →
            di.bdaddr = w.str2ba pattern → hci_test_bit HCI_RAW di.flags = true) →
          find_adapter w s (some pattern) = no_such_adapter) := by
  have h1 : ∀ str : String, find_by_address w str
      = match dl.find? (address_match w (w.str2ba str)) with
        | some dr => ((dr.dev_id % 65536 : Nat) : Int)
        | none => -1 := by
    intro str
    unfold find_by_address
    simp only [hs, hl, not_true_eq_false, if_false]
    exact find_by_address_loop_eq w _ dl
  refine ⟨h1, ?_⟩
  intro s pattern hp hraw
  have hnone : dl.find? (address_match w (w.str2ba pattern)) = none := by
    rw [List.find?_eq_none]
    intro dr hdr
    unfold address_match
    cases hdi : w.hci_devinfo (dr.dev_id % 65536 : Nat) with
    | none => simp
    | some di =>
      by_cases hba : di.bdaddr = w.str2ba pattern
      · simp [hraw dr hdr di hdi hba]
      · simp [hba]
  have hid : find_adapter_dev_id w pattern = -1 := by
    rw [address_branch w pattern hp, h1 pattern, hnone]
  simp [find_adapter, hid]

theorem find_by_address_first_witness :
    find_by_address (World.controller 0) "00:11:22:33:44:55" = 0
      ∧ find_adapter (World.controller 256) started_zero (some "00:11:22:33:44:55")
          = no_such_adapter :=
  ⟨((find_by_address_first (World.controller 0) [⟨0, 0⟩] (by decide) (by decide)).1
      "00:11:22:33:44:55").trans (by decide),
    (find_by_address_first (World.controller 256) [⟨0, 0⟩] (by decide) (by decide)).2
      started_zero "00:11:22:33:44:55" (by decide) (by decide)⟩

/-! ## `ListAdapters` -/

theorem list_adapters_loop_eq (w : World) (l : List adapter) :
    list_adapters_loop w l = (l.filter (live_visible w)).map adapter_get_path := by
  induction l with
  | nil => rfl
  | cons a l ih =>
    rw [list_adapters_loop, List.filter_cons]
    unfold live_visible
    cases hdi : w.hci_devinfo (adapter_get_dev_id a) with
    | none => simpa using ih
    | some di =>
      by_cases hraw : hci_test_bit HCI_RAW di.flags = true
      · simpa [hraw] using ih
      · simpa [hraw] using ih

/-- C9: `ListAdapters()` returns the paths of the registry members, in
registry order, of exactly those members whose info lookup succeeds and whose
raw-mode flag is clear; the path of a member in raw mode is not in the reply
(paths being proper to device ids). -/
theorem list_adapters_reply (w : World) (s : manager) (hk : w.new_method_return_ok = true) :
    list_adapters w s
        = .object_path_array ((s.adapters.filter (live_visible w)).map adapter_get_path)
      ∧ (∀ a ∈ s.adapters, ∀ di, w.hci_devinfo (adapter_get_dev_id a) = some di →
          hci_test_bit HCI_RAW di.flags = true →
          (∀ b ∈ s.adapters, adapter_get_path b = adapter_get_path a →
            adapter_get_dev_id b = adapter_get_dev_id a) →
          ∀ paths, list_adapters w s = .object_path_array paths →
            adapter_get_path a ∉ paths) := by
  have h1 : list_adapters w s
      = .object_path_array ((s.adapters.filter (live_visible w)).map adapter_get_path) := by
    simp [list_adapters, hk, list_adapters_loop_eq]
  refine ⟨h1, ?_⟩
  intro a _ di hdi hraw huniq paths hp
  rw [h1] at hp
  injection hp with hp
  rw [← hp, List.mem_map]
  rintro ⟨b, hb, hba⟩
  rw [List.mem_filter] at hb
  have hid := huniq b hb.1 hba
  have hv := hb.2
  unfold live_visible at hv
  rw [hid, hdi] at hv
  simp [hraw] at hv

theorem list_adapters_reply_witness :
    list_adapters (World.controller 0) started_both = .object_path_array ["/hci0"]
      ∧ list_adapters (World.controller 256) started_both = .object_path_array [] :=
  ⟨(list_adapters_reply (World.controller 0) started_both (by decide)).1.trans (by decide),
    (list_adapters_reply (World.controller 256) started_both (by decide)).1.trans (by decide)⟩

/-! ## Lookup after removal -/

/-- C10, as the code has it: every registered id is found, with an adapter of
that id; and in a registry whose members have distinct ids, after a successful
`unregister_adapter(id)` the lookup of `id` finds nothing. -/
theorem unregister_then_find (w : World) (s : manager) (id : Int) :
    (∀ a ∈ s.adapters, ∃ b, manager_find_adapter_by_id s (adapter_get_dev_id a : Int) = some b
        ∧ adapter_get_dev_id b = adapter_get_dev_id a)
      ∧ (unique_ids s → (manager_unregister_adapter w id s).2 = 0 →
          manager_find_adapter_by_id (manager_unregister_adapter w id s).1 id = none) := by
  constructor
  · intro a ha
    have hne : manager_find_adapter_by_id s (adapter_get_dev_id a : Int) ≠ none :=
      find_by_id_of_mem ha (dev_id_emod a).symm
    obtain ⟨b, hb⟩ := Option.ne_none_iff_exists'.mp hne
    refine ⟨b, hb, ?_⟩
    have := (find_by_id_some hb).2
    rw [dev_id_emod] at this
    exact_mod_cast this
  · intro hu hok
    cases hf : manager_find_adapter_by_id s id with
    | none =>
      rw [unregister_not_found w id s hf] at hok
      simp at hok
    | some a =>
      rw [unregister_found w id s a hf]
      exact find_by_id_erase_unique hu hf _ _

theorem unregister_then_find_witness :
    manager_find_adapter_by_id (manager_unregister_adapter (World.route 1) 0 started_both).1 0
      = none :=
  (unregister_then_find (World.route 1) started_both 0).2 (by decide) (by decide)

/-- C10 as stated fails: with `hci0` registered twice, `unregister_adapter(0)`
succeeds and the lookup of `0` still finds an adapter. -/
theorem unregister_then_find_counterexample :
    (manager_unregister_adapter World.quiet 0 registered_twice).2 = 0
      ∧ manager_find_adapter_by_id
          (manager_unregister_adapter World.quiet 0 registered_twice).1 0 = some hci0 := by
  decide

/-! ## Registering -/

theorem emitted_append (s t : manager) (l : List Effect) (h : t.trace = s.trace ++ l) :
    emitted s t = l := by
  unfold emitted
  rw [h]
  simp

/-- C11: when the factory fails, `register_adapter(id)` returns `-1`, leaves
registry and default as they were and emits no signal; when it yields `a`, the
call returns `0`, emits the single signal `AdapterAdded(path(a))` and only then
appends `a` at the end of the registry, whatever ids are already there: when
the signal is emitted the registry is still the old one.  The default stays as
it was. -/
theorem register_adapter_postcondition (w : World) (id : Int) (s : manager) :
    (w.adapter_create id = none →
        (manager_register_adapter w id s).2 = -1
          ∧ (manager_register_adapter w id s).1.adapters = s.adapters
          ∧ (manager_register_adapter w id s).1.default_adapter_id = s.default_adapter_id
          ∧ emitted s (manager_register_adapter w id s).1 = [.adapter_create id])
      ∧ (∀ a, w.adapter_create id = some a →
          (manager_register_adapter w id s).2 = 0
            ∧ emitted s (manager_register_adapter w id s).1
                = [.adapter_create id, .signal "AdapterAdded" (some (adapter_get_path a)),
                    .adapters_append a]
            ∧ (emitted s (manager_register_adapter w id s).1).filter Effect.is_emission
                = [.signal "AdapterAdded" (some (adapter_get_path a))]
            ∧ registry_replay ((emitted s (manager_register_adapter w id s).1).take 2)
                s.adapters = s.adapters
            ∧ registry_replay (emitted s (manager_register_adapter w id s).1) s.adapters
                = (manager_register_adapter w id s).1.adapters
            ∧ (manager_register_adapter w id s).1.adapters = s.adapters ++ [a]
            ∧ (manager_register_adapter w id s).1.default_adapter_id
                = s.default_adapter_id) := by
  constructor
  · intro h
    rw [register_failed w id s h]
    exact ⟨rfl, rfl, rfl, emitted_append s _ [.adapter_create id] rfl⟩
  · intro a h
    rw [register_created w id s a h]
    have he := emitted_append s
      ⟨s.adapters ++ [a], s.default_adapter_id,
        s.trace ++ [.adapter_create id, .signal "AdapterAdded" (some a.path),
          .adapters_append a]⟩
      [.adapter_create id, .signal "AdapterAdded" (some a.path), .adapters_append a] rfl
    refine ⟨rfl, he, ?_, ?_, ?_, rfl, rfl⟩
    · rw [he]
      rfl
    · rw [he]
      rfl
    · rw [he]
      rfl

theorem register_adapter_postcondition_witness :
    emitted registered_twice (manager_register_adapter World.quiet 0 registered_twice).1
        = [.adapter_create 0, .signal "AdapterAdded" (some "/hci0"), .adapters_append hci0]
      ∧ (manager_register_adapter World.quiet 0 registered_twice).1.adapters
          = [hci0, hci0, hci0] :=
  have h := (register_adapter_postcondition World.quiet 0 registered_twice).2 hci0 (by decide)
  ⟨h.2.1, h.2.2.2.2.2.1.trans (by decide)⟩

/-! ## Starting and setting the default -/

/-- C13: for a registered id, a failing start protocol hands its error code
back and changes neither registry nor default nor emits a signal; a succeeding
one returns `0`, and makes `id` the default with the single signal
`DefaultAdapterChanged(path)` exactly when no default was set, a set default
being kept with no signal. -/
theorem start_adapter_postcondition (w : World) (s : manager) (id : Int) (a : adapter)
    (hf : manager_find_adapter_by_id s id = some a) :
    (w.adapter_start a < 0 →
        (manager_start_adapter w id s).2 = w.adapter_start a
          ∧ (manager_start_adapter w id s).1.adapters = s.adapters
          ∧ (manager_start_adapter w id s).1.default_adapter_id = s.default_adapter_id
          ∧ (emitted s (manager_start_adapter w id s).1).filter Effect.is_emission = [])
      ∧ (0 ≤ w.adapter_start a →
          (manager_start_adapter w id s).2 = 0
            ∧ (manager_start_adapter w id s).1.adapters = s.adapters
            ∧ (s.default_adapter_id < 0 →
                (manager_start_adapter w id s).1.default_adapter_id = id
                  ∧ (emitted s (manager_start_adapter w id s).1).filter Effect.is_emission
                      = [.signal "DefaultAdapterChanged" (some (adapter_get_path a))])
            ∧ (0 ≤ s.default_adapter_id →
                (manager_start_adapter w id s).1.default_adapter_id = s.default_adapter_id
                  ∧ (emitted s (manager_start_adapter w id s).1).filter Effect.is_emission
                      = [])) := by
  rw [start_found w id s a hf]
  constructor
  · intro h
    rw [if_pos h]
    refine ⟨rfl, rfl, rfl, ?_⟩
    rw [emitted_append s _ [.adapter_start a] rfl]
    rfl
  · intro h
    have hn : ¬ w.adapter_start a < 0 := by omega
    rw [if_neg hn]
    refine ⟨?_, ?_, ?_, ?_⟩
    · split_ifs <;> rfl
    · split_ifs <;> rfl
    · intro hd
      rw [if_pos hd]
      refine ⟨rfl, ?_⟩
      rw [emitted_append s _
        [.adapter_start a, .signal "DefaultAdapterChanged" (some a.path)] rfl]
      rfl
    · intro hd
      have hdn : ¬ s.default_adapter_id < 0 := by omega
      rw [if_neg hdn]
      refine ⟨rfl, ?_⟩
      rw [emitted_append s _ [.adapter_start a] rfl]
      rfl

theorem start_adapter_postcondition_witness :
    (manager_start_adapter World.quiet 1
        (run [(World.quiet, .register_adapter 0), (World.quiet, .start_adapter 0),
          (World.quiet, .register_adapter 1)] manager.init)).1.default_adapter_id = 0
      ∧ started_both.default_adapter_id = 0 :=
  ⟨(((start_adapter_postcondition World.quiet
      (run [(World.quiet, .register_adapter 0), (World.quiet, .start_adapter 0),
        (World.quiet, .register_adapter 1)] manager.init) 1 hci1 (by decide)).2
      (by decide)).2.2.2 (by decide)).1.trans (by decide), by decide⟩

/-- C14: for a registered id, `manager_set_default_adapter(id)` makes `id` the
default and emits the single signal `DefaultAdapterChanged` with the path of the
adapter registered under `id`, whatever the default was before; the registry
stays as it was. -/
theorem set_default_adapter_postcondition (s : manager) (id : Int) (a : adapter)
    (hf : manager_find_adapter_by_id s id = some a) :
    manager_get_default_adapter (manager_set_default_adapter id s) = id
      ∧ emitted s (manager_set_default_adapter id s)
          = [.signal "DefaultAdapterChanged" (some (adapter_get_path a))]
      ∧ (manager_set_default_adapter id s).adapters = s.adapters := by
  rw [set_default_eq, hf]
  refine ⟨rfl, ?_, rfl⟩
  exact emitted_append s _ _ rfl

theorem set_default_adapter_postcondition_witness :
    manager_get_default_adapter (manager_set_default_adapter 0 started_both) = 0
      ∧ emitted started_both (manager_set_default_adapter 0 started_both)
          = [.signal "DefaultAdapterChanged" (some "/hci0")] :=
  have h := set_default_adapter_postcondition started_both 0 hci0 (by decide)
  ⟨h.1, h.2.1⟩

/-! ## Unregistering -/

theorem erase_split {α : Type} [DecidableEq α] (l : List α) (a : α) (h : a ∈ l) :
    ∃ l1 l2, l = l1 ++ a :: l2 ∧ a ∉ l1 ∧ l.erase a = l1 ++ l2 := by
  obtain ⟨l1, l2, hn, hl, he⟩ := List.exists_erase_eq h
  exact ⟨l1, l2, hl, hn, he⟩

/-- C12: for a registered id, `unregister_adapter(id)` returns `0` whatever
the stop protocol answers.  Its effects are, in order: the adapter is stopped,
`AdapterRemoved(path)` is emitted, the route is looked up exactly when the
removed adapter is the default or no default is set (a candidate being made
the default while the adapter is still registered), the adapter is taken out
of the registry, the adapter is released.  The registry loses the first
occurrence of the adapter and keeps the order of the others; a set default
other than the removed adapter is kept and no `DefaultAdapterChanged` is
emitted. -/
theorem unregister_adapter_effects (w : World) (s : manager) (id : Int) (a : adapter)
    (hf : manager_find_adapter_by_id s id = some a) :
    (manager_unregister_adapter w id s).2 = 0
      ∧ emitted s (manager_unregister_adapter w id s).1
          = [.adapter_stop a, .signal "AdapterRemoved" (some (adapter_get_path a))]
            ++ (if s.default_adapter_id = (adapter_get_dev_id a : Int)
                  ∨ s.default_adapter_id < 0 then
                if w.hci_get_route ≥ 0 then
                  [.hci_get_route, .signal "DefaultAdapterChanged"
                    ((manager_find_adapter_by_id s w.hci_get_route).map adapter_get_path)]
                else [.hci_get_route]
              else [])
            ++ [.adapters_remove a, .adapter_remove a]
      ∧ (Effect.hci_get_route ∈ emitted s (manager_unregister_adapter w id s).1
          ↔ (s.default_adapter_id = (adapter_get_dev_id a : Int) ∨ s.default_adapter_id < 0))
      ∧ registry_replay (emitted s (manager_unregister_adapter w id s).1) s.adapters
          = (manager_unregister_adapter w id s).1.adapters
      ∧ (∃ l1 l2, s.adapters = l1 ++ a :: l2 ∧ a ∉ l1
          ∧ (manager_unregister_adapter w id s).1.adapters = l1 ++ l2)
      ∧ (0 ≤ s.default_adapter_id → s.default_adapter_id ≠ (adapter_get_dev_id a : Int) →
          (manager_unregister_adapter w id s).1.default_adapter_id = s.default_adapter_id
            ∧ (emitted s (manager_unregister_adapter w id s).1).filter
                (Effect.is_signal "DefaultAdapterChanged") = []) := by
  have htr : emitted s (manager_unregister_adapter w id s).1
      = [.adapter_stop a, .signal "AdapterRemoved" (some (adapter_get_path a))]
        ++ reevaluation_trace w a s ++ [.adapters_remove a, .adapter_remove a] := by
    rw [unregister_found w id s a hf]
    apply emitted_append
    simp [adapter_get_path]
  refine ⟨?_, htr, ?_, ?_, ?_, ?_⟩
  · rw [unregister_found w id s a hf]
  · rw [htr]
    unfold reevaluation_trace
    by_cases h1 : s.default_adapter_id = (adapter_get_dev_id a : Int) ∨ s.default_adapter_id < 0
    · by_cases h2 : w.hci_get_route ≥ 0 <;> simp [h1, h2]
    · simp [h1]
  · rw [htr, unregister_found w id s a hf]
    unfold reevaluation_trace
    by_cases h1 : s.default_adapter_id = (adapter_get_dev_id a : Int) ∨ s.default_adapter_id < 0
    · by_cases h2 : w.hci_get_route ≥ 0 <;>
        simp [h1, h2, registry_replay, g_slist_remove]
    · simp [h1, registry_replay, g_slist_remove]
  · rw [unregister_found w id s a hf]
    exact erase_split s.adapters a (find_by_id_some hf).1
  · intro h0 hne
    have h1 : ¬ (s.default_adapter_id = (adapter_get_dev_id a : Int)
        ∨ s.default_adapter_id < 0) := by
      rintro (h | h)
      · exact hne h
      · omega
    constructor
    · rw [unregister_found w id s a hf]
      simp [reevaluated_default, h1]
    · rw [htr]
      simp [reevaluation_trace, h1, Effect.is_signal]

theorem unregister_adapter_effects_witness :
    emitted started_both (manager_unregister_adapter (World.route 1) 0 started_both).1
        = [.adapter_stop hci0, .signal "AdapterRemoved" (some "/hci0"), .hci_get_route,
            .signal "DefaultAdapterChanged" (some "/hci1"), .adapters_remove hci0,
            .adapter_remove hci0]
      ∧ (manager_unregister_adapter (World.route 1) 0 started_both).1.adapters = [hci1] :=
  ⟨(unregister_adapter_effects (World.route 1) started_both 0 hci0 (by decide)).2.1.trans
      (by decide), by decide⟩

/-! ## Uniqueness of ids -/

theorem start_adapters (w : World) (id : Int) (s : manager) :
    (manager_start_adapter w id s).1.adapters = s.adapters := by
  cases hf : manager_find_adapter_by_id s id with
  | none => rw [start_not_found w id s hf]
  | some a =>
    rw [start_found w id s a hf]
    split_ifs <;> rfl

theorem step_unique_ids (w : World) (c : Call) (s : manager)
    (hfresh : c.fresh w s) (hu : unique_ids s) : unique_ids (c.step w s) := by
  unfold unique_ids at *
  cases c with
  | register_adapter id =>
    simp only [Call.step]
    cases hc : w.adapter_create id with
    | none =>
      rw [register_failed w id s hc]
      exact hu
    | some a =>
      rw [register_created w id s a hc]
      have hfa : (adapter_get_dev_id a : Int) = id % 65536 := by
        have := hfresh.2
        rw [hc] at this
        exact this
      have hnone := find_by_id_none.mp hfresh.1
      simp only [List.map_append, List.map_cons, List.map_nil]
      rw [List.nodup_append]
      refine ⟨hu, List.nodup_singleton _, ?_⟩
      intro x hx hx1
      rw [List.mem_singleton] at hx1
      obtain ⟨b, hb, hbx⟩ := List.mem_map.mp hx
      apply hnone b hb
      rw [hbx, hx1, hfa]
  | unregister_adapter id =>
    simp only [Call.step]
    cases hf : manager_find_adapter_by_id s id with
    | none =>
      rw [unregister_not_found w id s hf]
      exact hu
    | some a =>
      rw [unregister_found w id s a hf]
      exact List.Nodup.sublist (List.Sublist.map _ (List.erase_sublist a s.adapters)) hu
  | start_adapter id =>
    simp only [Call.step]
    rw [start_adapters]
    exact hu
  | stop_adapter id =>
    simp only [Call.step]
    rw [(stop_adapters_default w id s).1]
    exact hu
  | set_default_adapter id =>
    simp only [Call.step]
    rw [set_default_eq]
    exact hu

theorem run_unique_ids (calls : List (World × Call)) (s : manager)
    (hfresh : fresh_run calls s) (hu : unique_ids s) : unique_ids (run calls s) := by
  induction calls generalizing s with
  | nil => exact hu
  | cons wc rest ih =>
    obtain ⟨w, c⟩ := wc
    exact ih (c.step w s) hfresh.2 (step_unique_ids w c s hfresh.1 hu)

/-- C15, as the code has it: along every call sequence from the initial state
in which `register_adapter(id)` is only called for an id that is not
registered, the factory answering with an adapter of that id, no two members
of the registry share a device id. -/
theorem registry_unique_ids (calls : List (World × Call))
    (hfresh : fresh_run calls manager.init) :
    unique_ids (run calls manager.init) :=
  run_unique_ids calls manager.init hfresh (by decide)

theorem registry_unique_ids_witness :
    fresh_run scenario_calls manager.init ∧ unique_ids (run scenario_calls manager.init) :=
  ⟨by decide, registry_unique_ids scenario_calls (by decide)⟩

/-- C15 as stated fails: `register_adapter(0)` twice, the factory answering
each time with an adapter of device id `0`, leaves two members with one id. -/
theorem registry_unique_ids_counterexample :
    factory_faithful 0 (World.quiet.adapter_create 0)
      ∧ ¬ unique_ids
          (run [(World.quiet, .register_adapter 0), (World.quiet, .register_adapter 0)]
            manager.init) := by
  decide

/-! ## Calls on an id that is not registered -/

/-- C16, as the code has it: when no registered adapter has a 16-bit device
id equal to the id modulo 65536, each of `unregister_adapter`, `start_adapter`,
`stop_adapter`, `get_adapter_class`, `set_adapter_class` and `update_adapter`
returns a negative status and leaves the whole state as it was: registry,
default, and the trace, so that no adapter operation is invoked and no signal
is emitted. -/
theorem not_found_atomic (w : World) (s : manager) (id : Int) (dev_id : Nat) (cls : List Nat)
    (h : ∀ a ∈ s.adapters, (adapter_get_dev_id a : Int) ≠ id % 65536)
    (hd : ∀ a ∈ s.adapters, adapter_get_dev_id a ≠ dev_id % 65536) :
    (manager_unregister_adapter w id s).1 = s ∧ (manager_unregister_adapter w id s).2 < 0
      ∧ (manager_start_adapter w id s).1 = s ∧ (manager_start_adapter w id s).2 < 0
      ∧ (manager_stop_adapter w id s).1 = s ∧ (manager_stop_adapter w id s).2 < 0
      ∧ (manager_get_adapter_class w dev_id s).1 = s
      ∧ (manager_get_adapter_class w dev_id s).2 < 0
      ∧ (manager_set_adapter_class w dev_id cls s).1 = s
      ∧ (manager_set_adapter_class w dev_id cls s).2 < 0
      ∧ (manager_update_adapter w dev_id s).1 = s
      ∧ (manager_update_adapter w dev_id s).2 < 0 := by
  have he : -EINVAL < 0 := by decide
  have h1 : manager_find_adapter_by_id s id = none := find_by_id_none.mpr h
  have h2 : manager_find_adapter_by_id s (dev_id % 65536 : Nat) = none := by
    rw [find_by_id_none]
    intro a ha hc
    have hlt : dev_id % 65536 < 65536 := Nat.mod_lt _ (by norm_num)
    have hm : ((dev_id % 65536 : Nat) : Int) % 65536 = ((dev_id % 65536 : Nat) : Int) := by
      omega
    rw [hm] at hc
    exact hd a ha (by exact_mod_cast hc)
  rw [unregister_not_found w id s h1, start_not_found w id s h1]
  unfold manager_stop_adapter manager_get_adapter_class manager_set_adapter_class
    manager_update_adapter
  rw [h1, h2]
  exact ⟨rfl, by norm_num, rfl, he, rfl, he, rfl, he, rfl, he, rfl, he⟩

theorem not_found_atomic_witness :
    (manager_unregister_adapter World.quiet 7 started_both).1 = started_both
      ∧ (manager_unregister_adapter World.quiet 7 started_both).2 < 0
      ∧ (manager_update_adapter World.quiet 7 started_both).1 = started_both :=
  have h := not_found_atomic World.quiet started_both 7 7 [] (by decide) (by decide)
  ⟨h.1, h.2.1, h.2.2.2.2.2.2.2.2.2.2.1⟩

/-- C16 as stated fails: `65536` is the id of no registered adapter, yet
`unregister_adapter(65536)` finds `hci0`, stops it, removes it and returns `0`,
and `stop_adapter(65536)` stops `hci0`. -/
theorem not_found_atomic_counterexample :
    (∀ a ∈ started_zero.adapters, (adapter_get_dev_id a : Int) ≠ 65536)
      ∧ (manager_unregister_adapter World.quiet 65536 started_zero).2 = 0
      ∧ (manager_unregister_adapter World.quiet 65536 started_zero).1.adapters = []
      ∧ emitted started_zero (manager_unregister_adapter World.quiet 65536 started_zero).1
          = [.adapter_stop hci0, .signal "AdapterRemoved" (some "/hci0"), .hci_get_route,
              .adapters_remove hci0, .adapter_remove hci0]
      ∧ emitted started_zero (manager_stop_adapter World.quiet 65536 started_zero).1
          = [.adapter_stop hci0] := by
  decide

/-! ## A call whose arguments cannot be read -/

/-- C17, as the code has it: when `dbus_message_get_args` cannot read one
string from the message, `FindAdapter` hands no reply back (`NULL`): neither
the `InvalidArguments` nor the `NoSuchAdapter` error is built. -/
theorem find_adapter_unreadable_args (w : World) (s : manager) :
    find_adapter w s none = .null
      ∧ find_adapter w s none ≠ invalid_args
      ∧ find_adapter w s none ≠ no_such_adapter := by
  refine ⟨rfl, ?_, ?_⟩
  · intro h
    cases h
  · intro h
    cases h

/-- C17 as stated fails: with arguments that cannot be read, the handler
returns no reply instead of the `InvalidArguments` error. -/
theorem find_adapter_unreadable_args_counterexample :
    find_adapter World.quiet started_zero none = .null
      ∧ find_adapter World.quiet started_zero none ≠ invalid_args := by
  decide

/-! ## Calls that leave registry and default alone -/

/-- C18: `stop_adapter` and the three method handlers `DefaultAdapter`,
`FindAdapter` and `ListAdapters` leave the registry, members and order, and the
default selection as they were, in every world and for every argument. -/
theorem non_mutating_frame (w : World) (s : manager) (id : Int) (m : MethodCall) :
    (manager_stop_adapter w id s).1.adapters = s.adapters
      ∧ (manager_stop_adapter w id s).1.default_adapter_id = s.default_adapter_id
      ∧ (manager_methods w s m).1.adapters = s.adapters
      ∧ (manager_methods w s m).1.default_adapter_id = s.default_adapter_id
      ∧ (manager_methods w s m).1 = s := by
  refine ⟨(stop_adapters_default w id s).1, (stop_adapters_default w id s).2, ?_, ?_, ?_⟩ <;>
    cases m <;> rfl

/-! ## After the default is lost -/

/-- C19, as the code has it: when the default adapter `A` is unregistered
while the route lookup finds no candidate, the default id stays that of `A`;
the next successful `start_adapter(B)` returns `0` but leaves the default as it
is and emits no `DefaultAdapterChanged`, and, ids having been distinct, a
following `DefaultAdapter()` fails with `NoSuchAdapter`. -/
theorem default_not_recovered (w1 w2 : World) (s : manager) (idA idB : Int) (a b : adapter)
    (hfa : manager_find_adapter_by_id s idA = some a)
    (hd : s.default_adapter_id = (adapter_get_dev_id a : Int))
    (hr : w1.hci_get_route < 0)
    (hfb : manager_find_adapter_by_id (manager_unregister_adapter w1 idA s).1 idB = some b)
    (hok : 0 ≤ w2.adapter_start b) :
    (manager_start_adapter w2 idB (manager_unregister_adapter w1 idA s).1).2 = 0
      ∧ manager_get_default_adapter
          (manager_start_adapter w2 idB (manager_unregister_adapter w1 idA s).1).1
          = s.default_adapter_id
      ∧ (emitted (manager_unregister_adapter w1 idA s).1
          (manager_start_adapter w2 idB (manager_unregister_adapter w1 idA s).1).1).filter
          (Effect.is_signal "DefaultAdapterChanged") = []
      ∧ (unique_ids s → ∀ w3 : World,
          default_adapter w3
            (manager_start_adapter w2 idB (manager_unregister_adapter w1 idA s).1).1
            = no_such_adapter) := by
  have hnr : ¬ w1.hci_get_route ≥ 0 := by omega
  have hdef : (manager_unregister_adapter w1 idA s).1.default_adapter_id
      = s.default_adapter_id := by
    rw [unregister_found w1 idA s a hfa]
    simp [reevaluated_default, hnr]
  have had : (manager_unregister_adapter w1 idA s).1.adapters = s.adapters.erase a := by
    rw [unregister_found w1 idA s a hfa]
  have h0 : ¬ (manager_unregister_adapter w1 idA s).1.default_adapter_id < 0 := by
    rw [hdef, hd]
    have := Int.natCast_nonneg (adapter_get_dev_id a)
    omega
  have hnok : ¬ w2.adapter_start b < 0 := by omega
  rw [start_found w2 idB _ b hfb, if_neg hnok, if_neg h0]
  refine ⟨rfl, hdef, ?_, ?_⟩
  · rw [emitted_append _ _ [.adapter_start b] rfl]
    rfl
  · intro hu w3
    unfold default_adapter
    simp only [hdef, had]
    have hid : manager_find_adapter_by_id s s.default_adapter_id = some a := by
      rw [hd]
      exact find_by_id_dev_id hfa
    rw [find_by_id_erase_unique hu hid]

theorem default_not_recovered_witness :
    manager_get_default_adapter
        (manager_start_adapter World.quiet 1
          (manager_unregister_adapter World.quiet 0 default_zero_and_one).1).1 = 0
      ∧ default_adapter World.quiet
          (manager_start_adapter World.quiet 1
            (manager_unregister_adapter World.quiet 0 default_zero_and_one).1).1
          = no_such_adapter :=
  have h := default_not_recovered World.quiet World.quiet default_zero_and_one 0 1 hci0 hci1
    (by decide) (by decide) (by decide) (by decide) (by decide)
  ⟨h.2.1.trans (by decide), h.2.2.2 (by decide) World.quiet⟩

/-- C19 as stated fails: `hci0` is the default and `hci1` is registered;
`hci0` is unregistered with no route candidate and `start_adapter(1)` succeeds,
yet the default id is still `0`, no `DefaultAdapterChanged` was emitted by the
start, and `DefaultAdapter()` does not return the path of `hci1`. -/
theorem default_not_recovered_counterexample :
    (manager_start_adapter World.quiet 1
        (manager_unregister_adapter World.quiet 0 default_zero_and_one).1).2 = 0
      ∧ manager_get_default_adapter
          (manager_start_adapter World.quiet 1
            (manager_unregister_adapter World.quiet 0 default_zero_and_one).1).1 ≠ 1
      ∧ (emitted (manager_unregister_adapter World.quiet 0 default_zero_and_one).1
          (manager_start_adapter World.quiet 1
            (manager_unregister_adapter World.quiet 0 default_zero_and_one).1).1).filter
          (Effect.is_signal "DefaultAdapterChanged") = []
      ∧ default_adapter World.quiet
          (manager_start_adapter World.quiet 1
            (manager_unregister_adapter World.quiet 0 default_zero_and_one).1).1
          ≠ .object_path "/hci1" := by
  decide

/-! ## Comparison of ids -/

/-- C20: `manager_find_adapter_by_id(id)` returns the first adapter, in
registry order, whose 16-bit device id is `id` modulo 65536, and nothing when
there is none; ids congruent modulo 65536 are looked up alike, and the lookup
of `-1` finds a registered adapter of device id `65535`. -/
theorem find_by_id_modulo (s : manager) (id : Int) :
    manager_find_adapter_by_id s id
        = s.adapters.find? (fun a => decide ((adapter_get_dev_id a : Int) = id % 65536))
      ∧ (manager_find_adapter_by_id s id = none
          ↔ ∀ a ∈ s.adapters, (adapter_get_dev_id a : Int) ≠ id % 65536)
      ∧ (∀ id1 : Int, id1 % 65536 = id % 65536 →
          manager_find_adapter_by_id s id1 = manager_find_adapter_by_id s id)
      ∧ (∀ a ∈ s.adapters, adapter_get_dev_id a = 65535 →
          ∃ b, manager_find_adapter_by_id s (-1) = some b ∧ adapter_get_dev_id b = 65535) := by
  refine ⟨find_by_id_eq s id, find_by_id_none, fun id1 h => find_by_id_mod s id1 id h, ?_⟩
  intro a ha h65
  have hne : manager_find_adapter_by_id s (-1) ≠ none :=
    find_by_id_of_mem ha (by rw [h65]; decide)
  obtain ⟨b, hb⟩ := Option.ne_none_iff_exists'.mp hne
  refine ⟨b, hb, ?_⟩
  have hb2 := (find_by_id_some hb).2
  have : ((-1 : Int) % 65536) = 65535 := by decide
  rw [this] at hb2
  exact_mod_cast hb2

theorem find_by_id_modulo_witness :
    manager_find_adapter_by_id registered_65535 (-1) = some ⟨65535, "/hci65535", ""⟩
      ∧ manager_find_adapter_by_id started_both 65537 = manager_find_adapter_by_id started_both 1 :=
  ⟨by decide, (find_by_id_modulo started_both 1).2.2.1 65537 (by decide)⟩

end Bluez
